import Mathlib

/-!
Verification of the kopia-exporter metrics pipeline
(`src/kopia_exporter/__init__.py`).

The embedding models, faithfully to the Python source:

* `to_struct_time` — `datetime.strptime(ts[:-4], "%Y-%m-%dT%H:%M:%S.%f")`
  followed by `replace(tzinfo=timezone.utc)`.  A parsed value is a civil
  date-time with microsecond precision (`CivilDT`); parse failure
  (Python `ValueError`) is `none`.
* `refresh_data` — returns the decoded report list on success and `None`
  (here `none`) when JSON decoding fails, because the `except` branch has
  no `return`.
* the seven module-level Prometheus gauges, each a partial map from the
  label tuple `(host, path, user)` to a scalar;
* the body of `main`'s polling loop: per-entry field extraction
  (`KeyError` when a key is absent), timestamp parsing, duration
  computation via the `timedelta.seconds` component, and the seven
  in-place gauge writes.  Extraction and computation (lines 154–166)
  happen strictly before any gauge write (lines 169–179), so a raised
  exception leaves the gauge state untouched.
* the `while True:` / `for entry in data:` loop structure of `main`,
  in which any exception propagates and terminates the process.
-/

namespace KopiaExporter

/-- A civil date-time in UTC with microsecond precision: the information
content of the timezone-aware `datetime` values produced by
`to_struct_time`. -/
structure CivilDT where
  year : Nat
  month : Nat
  day : Nat
  hour : Nat
  minute : Nat
  second : Nat
  micro : Nat
deriving DecidableEq, Repr

/-- Numeric value of a decimal digit character. -/
def digitVal (c : Char) : Nat := c.toNat - 48

/-- Split a character list into its maximal leading run of decimal digits
and the rest. -/
def readDigits : List Char → List Char × List Char
  | [] => ([], [])
  | c :: cs =>
    if c.isDigit then
      let (ds, r) := readDigits cs
      (c :: ds, r)
    else ([], c :: cs)

/-- Value of a digit string, most significant digit first. -/
def digitsToNat (ds : List Char) : Nat :=
  ds.foldl (fun a c => 10 * a + digitVal c) 0

/-- Parse a 1-or-2 digit numeric field with an inclusive range check, as
CPython's `_strptime` regular expressions do for `%m`, `%d`, `%H`, `%M`,
`%S` when the field is followed by a non-digit literal: the maximal digit
run is taken and must have length 1 or 2 and value within range (a longer
run, or an out-of-range value, makes the overall match fail). -/
def readBounded (lo hi : Nat) (cs : List Char) : Option (Nat × List Char) :=
  let (ds, r) := readDigits cs
  if ds.length = 0 ∨ 2 < ds.length then none
  else
    let v := digitsToNat ds
    if lo ≤ v ∧ v ≤ hi then some (v, r) else none

/-- Parse `%Y`: exactly four digits; `datetime` further requires a year of
at least 1 (`MINYEAR`). -/
def readYear (cs : List Char) : Option (Nat × List Char) :=
  let (ds, r) := readDigits cs
  if ds.length = 4 then
    let v := digitsToNat ds
    if 1 ≤ v then some (v, r) else none
  else none

/-- Match one literal character. -/
def readLit (c : Char) : List Char → Option (List Char)
  | [] => none
  | x :: xs => if x = c then some xs else none

/-- Parse `%f`: one to six digits, right-padded with zeros to microseconds
(CPython pads the matched digit string to length 6 before `int`). -/
def readFraction (cs : List Char) : Option (Nat × List Char) :=
  let (ds, r) := readDigits cs
  if ds.length = 0 ∨ 6 < ds.length then none
  else some (digitsToNat ds * 10 ^ (6 - ds.length), r)

/-- Gregorian leap-year test. -/
def isLeap (y : Nat) : Bool :=
  (y % 4 == 0 && y % 100 != 0) || y % 400 == 0

/-- Number of days in a month, as validated by `datetime`'s constructor. -/
def daysInMonth (y m : Nat) : Nat :=
  if m = 2 then (if isLeap y then 29 else 28)
  else if m = 4 ∨ m = 6 ∨ m = 9 ∨ m = 11 then 30
  else 31

/-- The parser for the format string `"%Y-%m-%dT%H:%M:%S.%f"`: the whole
input must be consumed (`strptime` raises `ValueError` on unconverted
data), and the day is validated against the month length as `datetime`'s
constructor does. -/
def strptimeMicro (cs : List Char) : Option CivilDT := do
  let (y, cs) ← readYear cs
  let cs ← readLit '-' cs
  let (mo, cs) ← readBounded 1 12 cs
  let cs ← readLit '-' cs
  let (d, cs) ← readBounded 1 31 cs
  let cs ← readLit 'T' cs
  let (h, cs) ← readBounded 0 23 cs
  let cs ← readLit ':' cs
  let (mi, cs) ← readBounded 0 59 cs
  let cs ← readLit ':' cs
  let (s, cs) ← readBounded 0 59 cs
  let cs ← readLit '.' cs
  let (f, cs) ← readFraction cs
  match cs with
  | [] => if d ≤ daysInMonth y mo then some ⟨y, mo, d, h, mi, s, f⟩ else none
  | _ => none

/-- Python's slice `ts[:-4]`: drop the last four code points (empty result
when the string has four or fewer). -/
def pySliceToMinus4 (cs : List Char) : List Char :=
  cs.take (cs.length - 4)

/-- Model of `to_struct_time` (source lines 18–20):
`datetime.strptime(ts[:-4], "%Y-%m-%dT%H:%M:%S.%f").replace(tzinfo=utc)`.
`none` models the `ValueError` raised on a failed parse. -/
def to_struct_time (ts : String) : Option CivilDT :=
  strptimeMicro (pySliceToMinus4 ts.data)

/-- Days since 1970-01-01 of a civil date (proleptic Gregorian), the
standard era-based conversion used to give each parsed `datetime` its
unix timestamp. -/
def daysFromCivil (y m d : Nat) : Int :=
  let yy : Int := if m ≤ 2 then (y : Int) - 1 else (y : Int)
  let era : Int := yy.fdiv 400
  let yoe : Int := yy - era * 400
  let mp : Int := if 2 < m then (m : Int) - 3 else (m : Int) + 9
  let doy : Int := (153 * mp + 2).fdiv 5 + (d : Int) - 1
  let doe : Int := yoe * 365 + yoe.fdiv 4 - yoe.fdiv 100 + doy
  era * 146097 + doe - 719468

/-- Microseconds since the unix epoch of a UTC civil date-time: the exact
instant held by a timezone-aware microsecond-precision `datetime`. -/
def timestampMicro (t : CivilDT) : Int :=
  (daysFromCivil t.year t.month t.day * 86400
      + (t.hour : Int) * 3600 + (t.minute : Int) * 60 + (t.second : Int)) * 1000000
    + (t.micro : Int)

/-- Python's `datetime.timestamp()` for a UTC-aware value: seconds since
the epoch, fractional part included (modeled exactly as a rational). -/
def pyTimestamp (t : CivilDT) : ℚ :=
  (timestampMicro t : ℚ) / 1000000

/-- The `.seconds` component of the Python `timedelta` `end − start`:
`timedelta` normalizes to `days`/`seconds`/`microseconds` with floor
division, so the component equals the floor of the difference in whole
seconds, reduced modulo 86400 (source line 166 reads exactly this
component, not `total_seconds()`). -/
def timedeltaSecondsComponent (startT endT : CivilDT) : Int :=
  ((timestampMicro endT - timestampMicro startT).fdiv 1000000).emod 86400

/-- Modelled from the spec (§4.1): the instant a timestamp string of the
form `YYYY-MM-DDTHH:MM:SS.<fraction>Z` denotes, where the fractional field
may have one to nine digits and the `Z` suffix denotes UTC, as
nanoseconds since the unix epoch.  This definition follows the spec's
words and exists only to compare the source's `to_struct_time` against
the denotation the spec demands; it is not part of the source. -/
def specTimestampNanos (ts : String) : Option Int := do
  let cs := ts.data
  let (y, cs) ← readYear cs
  let cs ← readLit '-' cs
  let (mo, cs) ← readBounded 1 12 cs
  let cs ← readLit '-' cs
  let (d, cs) ← readBounded 1 31 cs
  let cs ← readLit 'T' cs
  let (h, cs) ← readBounded 0 23 cs
  let cs ← readLit ':' cs
  let (mi, cs) ← readBounded 0 59 cs
  let cs ← readLit ':' cs
  let (s, cs) ← readBounded 0 59 cs
  let cs ← readLit '.' cs
  let (ds, cs) := readDigits cs
  if ds.length = 0 ∨ 9 < ds.length then none
  else
    let nanos := digitsToNat ds * 10 ^ (9 - ds.length)
    let cs ← readLit 'Z' cs
    match cs with
    | [] =>
      if d ≤ daysInMonth y mo then
        some ((daysFromCivil y mo d * 86400
            + (h : Int) * 3600 + (mi : Int) * 60 + (s : Int)) * 1000000000
          + (nanos : Int))
      else none
    | _ => none

/-- The `stats` sub-dictionary of a report: a field absent from the JSON
object is `none`, and looking it up raises `KeyError`. -/
structure Stats where
  totalSize : Option Int
  fileCount : Option Int
  dirCount : Option Int
  errorCount : Option Int
deriving DecidableEq, Repr

/-- The `source` sub-dictionary of a report. -/
structure Source where
  host : Option String
  userName : Option String
  path : Option String
deriving DecidableEq, Repr

/-- One decoded backup-report entry as `main` consumes it; each field
models the presence or absence of the corresponding JSON key. -/
structure Entry where
  source : Option Source
  stats : Option Stats
  startTime : Option String
  endTime : Option String
deriving DecidableEq, Repr

/-- The Python exceptions the loop body can raise: `KeyError` from a
missing dictionary key, `ValueError` from `strptime`, `TypeError` from
iterating `None`. -/
inductive PyErr where
  | keyError
  | valueError
  | typeError
deriving DecidableEq, Repr

/-- Dictionary lookup: `d[k]` raises `KeyError` when the key is absent. -/
def getItem {α : Type} : Option α → Except PyErr α
  | some a => .ok a
  | none => .error .keyError

/-- Calling `to_struct_time`; a failed parse raises `ValueError`. -/
def parseTime (s : String) : Except PyErr CivilDT :=
  match to_struct_time s with
  | some t => .ok t
  | none => .error .valueError

/-- The values the loop body computes before touching any gauge
(source lines 154–166). -/
structure Extracted where
  host : String
  path : String
  user : String
  total_size : Int
  file_count : Int
  dir_count : Int
  error_count : Int
  start_time : CivilDT
  end_time : CivilDT
  duration : Int
deriving DecidableEq, Repr

/-- The extraction-and-computation phase of the loop body, in source
statement order (lines 154–166): label fields, stats fields, both
timestamps, then `duration = (end_time - start_time).seconds`.  Every
fallible step happens here, before any gauge write. -/
def extractEntry (e : Entry) : Except PyErr Extracted := do
  let src ← getItem e.source
  let host ← getItem src.host
  let path ← getItem src.path
  let user ← getItem src.userName
  let st ← getItem e.stats
  let total_size ← getItem st.totalSize
  let file_count ← getItem st.fileCount
  let dir_count ← getItem st.dirCount
  let error_count ← getItem st.errorCount
  let startRaw ← getItem e.startTime
  let start_time ← parseTime startRaw
  let endRaw ← getItem e.endTime
  let end_time ← parseTime endRaw
  let duration := timedeltaSecondsComponent start_time end_time
  return ⟨host, path, user, total_size, file_count, dir_count, error_count,
    start_time, end_time, duration⟩

/-- The label tuple `(host, path, user)` keying every gauge. -/
abbrev MetricKey := String × String × String

/-- One labeled Prometheus gauge: `labels(...).set(v)` overwrites the
value stored for that label tuple and creates it on first use. -/
def gaugeSet (g : MetricKey → Option ℚ) (k : MetricKey) (v : ℚ) :
    MetricKey → Option ℚ :=
  fun k2 => if k2 = k then some v else g k2

/-- The seven module-level gauges (source lines 52–86); `none` means a
label tuple for which no value has ever been set. -/
@[ext]
structure GaugeState where
  total_size_gauge : MetricKey → Option ℚ
  file_count_gauge : MetricKey → Option ℚ
  dir_count_gauge : MetricKey → Option ℚ
  error_count_gauge : MetricKey → Option ℚ
  backup_duration_gauge : MetricKey → Option ℚ
  backup_start_time_gauge : MetricKey → Option ℚ
  backup_end_time_gauge : MetricKey → Option ℚ

/-- Gauge state at process start: no label tuple has a value. -/
def initState : GaugeState :=
  ⟨fun _ => none, fun _ => none, fun _ => none, fun _ => none,
   fun _ => none, fun _ => none, fun _ => none⟩

/-- The seven gauge writes of the loop body (source lines 169–179). -/
def setGauges (g : GaugeState) (v : Extracted) : GaugeState :=
  let k : MetricKey := (v.host, v.path, v.user)
  { total_size_gauge := gaugeSet g.total_size_gauge k (v.total_size : ℚ)
    file_count_gauge := gaugeSet g.file_count_gauge k (v.file_count : ℚ)
    dir_count_gauge := gaugeSet g.dir_count_gauge k (v.dir_count : ℚ)
    error_count_gauge := gaugeSet g.error_count_gauge k (v.error_count : ℚ)
    backup_duration_gauge := gaugeSet g.backup_duration_gauge k (v.duration : ℚ)
    backup_start_time_gauge := gaugeSet g.backup_start_time_gauge k (pyTimestamp v.start_time)
    backup_end_time_gauge := gaugeSet g.backup_end_time_gauge k (pyTimestamp v.end_time) }

/-- One iteration of `for entry in data` (source lines 153–179): a raised
exception is returned alongside the state at the moment of the raise;
since all fallible statements precede all gauge writes, that state is the
input state. -/
def update (g : GaugeState) (e : Entry) : GaugeState × Option PyErr :=
  match extractEntry e with
  | .ok v => (setGauges g v, none)
  | .error err => (g, some err)

/-- The `for entry in data` loop: an exception raised by one entry skips
the remaining entries and propagates. -/
def processEntries (g : GaugeState) : List Entry → GaugeState × Option PyErr
  | [] => (g, none)
  | e :: rest =>
    match update g e with
    | (g2, none) => processEntries g2 rest
    | (g2, some err) => (g2, some err)

/-- Model of `refresh_data` (source lines 23–49) as a function of the
decoding outcome for the command output: on success the decoded list is
returned; on `JSONDecodeError` the `except` branch logs and falls off the
end of the function, returning `None`. -/
def refresh_data (loads : String → Except String (List Entry))
    (output : String) : Option (List Entry) :=
  match loads output with
  | .ok v => some v
  | .error _ => none

/-- The `while True:` loop of `main` (source lines 150–182) over the
successive results of `refresh_data`: iterating a `None` result raises
`TypeError`, and any exception raised inside a cycle propagates out of
the loop — there is no `try`/`except` in `main` — terminating the
process and abandoning all later cycles. -/
def runCycles (g : GaugeState) :
    List (Option (List Entry)) → GaugeState × Option PyErr
  | [] => (g, none)
  | none :: _ => (g, some .typeError)
  | some entries :: rest =>
    match processEntries g entries with
    | (g2, none) => runCycles g2 rest
    | (g2, some err) => (g2, some err)

/-- Build a fully-populated entry. -/
def mkEntry (h p u : String) (ts fc dc ec : Int) (s1 s2 : String) : Entry :=
  ⟨some ⟨some h, some u, some p⟩, some ⟨some ts, some fc, some dc, some ec⟩,
   some s1, some s2⟩

/-- The spec's worked duration example: a 37.325497-second backup. -/
def entryExample : Entry :=
  mkEntry "freenas" "/mnt/x" "root" 100 2 1 0
    "2024-08-19T05:17:21.202557011Z" "2024-08-19T05:17:58.528054855Z"

/-- A valid entry whose backup lasted exactly 25 hours. -/
def entryDayLong : Entry :=
  mkEntry "freenas" "/mnt/x" "root" 100 2 1 0
    "2024-08-19T05:17:21.202557011Z" "2024-08-20T06:17:21.202557011Z"

/-- A valid entry whose backup lasted two days and ten seconds. -/
def entryTwoDays : Entry :=
  mkEntry "freenas" "/mnt/x" "root" 100 2 1 0
    "2024-08-19T05:17:21.202557011Z" "2024-08-21T05:17:31.202557011Z"

/-- A valid entry whose `endTime` precedes its `startTime` (the worked
example with the two timestamps swapped). -/
def entryBackwards : Entry :=
  mkEntry "freenas" "/mnt/x" "root" 100 2 1 0
    "2024-08-19T05:17:58.528054855Z" "2024-08-19T05:17:21.202557011Z"

/-- An otherwise well-formed entry whose `stats.errorCount` key is
absent. -/
def entryNoErrorCount : Entry :=
  ⟨some ⟨some "hostB", some "userB", some "pathB"⟩,
   some ⟨some 11, some 12, some 13, none⟩,
   some "2024-08-19T05:17:21.202557011Z", some "2024-08-19T05:17:58.528054855Z"⟩

/-- A valid entry for a second, distinct backup source. -/
def entryOther : Entry :=
  mkEntry "hostG" "/srv/g" "userG" 500 40 30 2
    "2024-08-19T05:17:21.202557011Z" "2024-08-19T05:17:58.528054855Z"

/-- The worked example's source with different stats: same label tuple as
`entryExample`, different values. -/
def entryExample2 : Entry :=
  mkEntry "freenas" "/mnt/x" "root" 250 7 5 1
    "2024-08-19T05:17:21.202557011Z" "2024-08-20T06:17:21.202557011Z"

/-- A decoding function that always fails, modelling command output that
is not parseable JSON. -/
def failingLoads : String → Except String (List Entry) :=
  fun _ => .error "Expecting value"

/-- A fully-populated entry with parseable timestamps extracts to exactly
the tuple of its fields plus the `timedelta`-derived duration. -/
theorem extractEntry_fields (e : Entry) (src : Source) (stt : Stats)
    (h p u : String) (a b c d : Int) (s1 s2 : String) (t1 t2 : CivilDT)
    (hsrc : e.source = some src) (hh : src.host = some h) (hp : src.path = some p)
    (hu : src.userName = some u) (hst : e.stats = some stt)
    (ha : stt.totalSize = some a) (hb : stt.fileCount = some b)
    (hc : stt.dirCount = some c) (hd : stt.errorCount = some d)
    (hs1 : e.startTime = some s1) (hs2 : e.endTime = some s2)
    (ht1 : to_struct_time s1 = some t1) (ht2 : to_struct_time s2 = some t2) :
    extractEntry e
      = .ok ⟨h, p, u, a, b, c, d, t1, t2, timedeltaSecondsComponent t1 t2⟩ := by
  simp [extractEntry, hsrc, hh, hp, hu, hst, ha, hb, hc, hd, hs1, hs2, getItem,
    parseTime, ht1, ht2, bind, Except.bind, Functor.map, Except.map, pure, Except.pure]

/-- A successful extraction makes `update` write the seven gauges and
raise nothing. -/
theorem update_ok (g : GaugeState) (e : Entry) (v : Extracted)
    (he : extractEntry e = .ok v) :
    update g e = (setGauges g v, none) := by
  simp [update, he]

/-- Setting the same labeled gauge twice keeps only the second value. -/
theorem gaugeSet_gaugeSet (g : MetricKey → Option ℚ) (k : MetricKey) (v w : ℚ) :
    gaugeSet (gaugeSet g k v) k w = gaugeSet g k w := by
  funext k2
  by_cases hk : k2 = k <;> simp [gaugeSet, hk]

/-- Setting a labeled gauge leaves every other label tuple untouched. -/
theorem gaugeSet_ne (g : MetricKey → Option ℚ) (k k2 : MetricKey) (v : ℚ)
    (hk : k2 ≠ k) : gaugeSet g k v k2 = g k2 := by
  simp [gaugeSet, hk]

/-- Two gauge-write phases for the same label tuple collapse to the
second. -/
theorem setGauges_overwrite (g : GaugeState) (v1 v2 : Extracted)
    (hk : (v1.host, v1.path, v1.user) = (v2.host, v2.path, v2.user)) :
    setGauges (setGauges g v1) v2 = setGauges g v2 := by
  ext k2 q <;> simp [setGauges, hk, gaugeSet_gaugeSet]

/-- C1 counterexample: the claim asserts the duration gauge always holds
`floor(endTime − startTime)` in whole seconds, but for the valid report
`entryDayLong`, whose backup lasted exactly 25 hours (floor 90000
seconds), `update` succeeds and stores 3600, not 90000 — the code reads
the `timedelta.seconds` component, which reduces modulo 86400. -/
theorem C1_counterexample_dayLongDuration :
    to_struct_time "2024-08-19T05:17:21.202557011Z"
        = some ⟨2024, 8, 19, 5, 17, 21, 202557⟩
    ∧ to_struct_time "2024-08-20T06:17:21.202557011Z"
        = some ⟨2024, 8, 20, 6, 17, 21, 202557⟩
    ∧ Int.fdiv (timestampMicro ⟨2024, 8, 20, 6, 17, 21, 202557⟩
          - timestampMicro ⟨2024, 8, 19, 5, 17, 21, 202557⟩) 1000000 = 90000
    ∧ (update initState entryDayLong).2 = none
    ∧ (update initState entryDayLong).1.backup_duration_gauge
        ("freenas", "/mnt/x", "root") = some 3600
    ∧ (3600 : ℚ) ≠ 90000 := by
  refine ⟨by decide, by decide, by decide, by decide, by decide, by norm_num⟩

/-- C1 (amended): for every valid report (all source and stats fields
present, both timestamps parseable), `update` succeeds and each of the
seven gauges at the report's label tuple holds exactly the report's
`totalSize`, `fileCount`, `dirCount`, `errorCount`, the floor of
`endTime − startTime` in whole seconds reduced modulo 86400 (equal to the
plain floor exactly when the duration is non-negative and under 24
hours), and `startTime` and `endTime` as unix seconds. -/
theorem C1_update_sets_all_gauges
    (g : GaugeState) (e : Entry) (src : Source) (stt : Stats)
    (h p u : String) (a b c d : Int) (s1 s2 : String) (t1 t2 : CivilDT)
    (hsrc : e.source = some src) (hh : src.host = some h) (hp : src.path = some p)
    (hu : src.userName = some u) (hst : e.stats = some stt)
    (ha : stt.totalSize = some a) (hb : stt.fileCount = some b)
    (hc : stt.dirCount = some c) (hd : stt.errorCount = some d)
    (hs1 : e.startTime = some s1) (hs2 : e.endTime = some s2)
    (ht1 : to_struct_time s1 = some t1) (ht2 : to_struct_time s2 = some t2) :
    (update g e).2 = none
    ∧ (update g e).1.total_size_gauge (h, p, u) = some (a : ℚ)
    ∧ (update g e).1.file_count_gauge (h, p, u) = some (b : ℚ)
    ∧ (update g e).1.dir_count_gauge (h, p, u) = some (c : ℚ)
    ∧ (update g e).1.error_count_gauge (h, p, u) = some (d : ℚ)
    ∧ (update g e).1.backup_duration_gauge (h, p, u)
        = some ((((timestampMicro t2 - timestampMicro t1).fdiv 1000000).emod 86400
            : Int) : ℚ)
    ∧ (update g e).1.backup_start_time_gauge (h, p, u) = some (pyTimestamp t1)
    ∧ (update g e).1.backup_end_time_gauge (h, p, u) = some (pyTimestamp t2) := by
  have hup := update_ok g e _
    (extractEntry_fields e src stt h p u a b c d s1 s2 t1 t2
      hsrc hh hp hu hst ha hb hc hd hs1 hs2 ht1 ht2)
  simp [hup, setGauges, gaugeSet, timedeltaSecondsComponent]

/-- C1 witness: the amended statement instantiated at the worked-example
report. -/
theorem C1_update_sets_all_gauges_witness :
    (update initState entryExample).2 = none
    ∧ (update initState entryExample).1.total_size_gauge
        ("freenas", "/mnt/x", "root") = some ((100 : Int) : ℚ)
    ∧ (update initState entryExample).1.file_count_gauge
        ("freenas", "/mnt/x", "root") = some ((2 : Int) : ℚ)
    ∧ (update initState entryExample).1.dir_count_gauge
        ("freenas", "/mnt/x", "root") = some ((1 : Int) : ℚ)
    ∧ (update initState entryExample).1.error_count_gauge
        ("freenas", "/mnt/x", "root") = some ((0 : Int) : ℚ)
    ∧ (update initState entryExample).1.backup_duration_gauge
        ("freenas", "/mnt/x", "root")
        = some ((((timestampMicro ⟨2024, 8, 19, 5, 17, 58, 528054⟩
              - timestampMicro ⟨2024, 8, 19, 5, 17, 21, 202557⟩).fdiv 1000000).emod 86400
            : Int) : ℚ)
    ∧ (update initState entryExample).1.backup_start_time_gauge
        ("freenas", "/mnt/x", "root")
        = some (pyTimestamp ⟨2024, 8, 19, 5, 17, 21, 202557⟩)
    ∧ (update initState entryExample).1.backup_end_time_gauge
        ("freenas", "/mnt/x", "root")
        = some (pyTimestamp ⟨2024, 8, 19, 5, 17, 58, 528054⟩) :=
  C1_update_sets_all_gauges initState entryExample _ _ "freenas" "/mnt/x" "root"
    100 2 1 0 "2024-08-19T05:17:21.202557011Z" "2024-08-19T05:17:58.528054855Z"
    ⟨2024, 8, 19, 5, 17, 21, 202557⟩ ⟨2024, 8, 19, 5, 17, 58, 528054⟩
    rfl rfl rfl rfl rfl rfl rfl rfl rfl rfl rfl rfl rfl

/-- C2 (code bug): `to_struct_time` strips exactly four trailing
characters instead of tolerating variable fractional-second width.  On
the repository's own test timestamp `2024-09-01T08:55:44.903686Z` (six
fractional digits) it produces the instant `…T08:55:44.903000Z`
(1725180944903000000 ns since the epoch) while the string denotes
`…T08:55:44.903686Z` (1725180944903686000 ns); and it rejects the
pattern-conforming string `2024-09-01T08:55:44.9Z` outright. -/
theorem C2_timestamp_parse_fixed_offset_bug :
    to_struct_time "2024-09-01T08:55:44.903686Z"
        = some ⟨2024, 9, 1, 8, 55, 44, 903000⟩
    ∧ specTimestampNanos "2024-09-01T08:55:44.903686Z"
        = some 1725180944903686000
    ∧ timestampMicro ⟨2024, 9, 1, 8, 55, 44, 903000⟩ * 1000
        = 1725180944903000000
    ∧ (1725180944903000000 : Int) ≠ 1725180944903686000
    ∧ to_struct_time "2024-09-01T08:55:44.9Z" = none
    ∧ (specTimestampNanos "2024-09-01T08:55:44.9Z").isSome = true := by
  decide

/-- C3 (code bug): for the valid report `entryBackwards`, whose parsed
`endTime` precedes its parsed `startTime` by 37.325497 seconds, `update`
raises no error and silently stores 86362 in the duration gauge (the
`timedelta.seconds` component of the negative difference), instead of
surfacing a data-quality error and storing nothing. -/
theorem C3_negative_duration_silently_stored :
    to_struct_time "2024-08-19T05:17:58.528054855Z"
        = some ⟨2024, 8, 19, 5, 17, 58, 528054⟩
    ∧ to_struct_time "2024-08-19T05:17:21.202557011Z"
        = some ⟨2024, 8, 19, 5, 17, 21, 202557⟩
    ∧ timestampMicro ⟨2024, 8, 19, 5, 17, 21, 202557⟩
        - timestampMicro ⟨2024, 8, 19, 5, 17, 58, 528054⟩ < 0
    ∧ (update initState entryBackwards).2 = none
    ∧ (update initState entryBackwards).1.backup_duration_gauge
        ("freenas", "/mnt/x", "root") = some 86362 := by
  decide

/-- C4 counterexample: the claim's general clause — duration is always
`endTime − startTime` truncated to whole seconds — fails for the valid
report `entryTwoDays`, whose backup lasted two days and ten seconds
(truncation 172810 seconds): `update` succeeds and stores 10. -/
theorem C4_counterexample_twoDayDuration :
    to_struct_time "2024-08-21T05:17:31.202557011Z"
        = some ⟨2024, 8, 21, 5, 17, 31, 202557⟩
    ∧ Int.fdiv (timestampMicro ⟨2024, 8, 21, 5, 17, 31, 202557⟩
          - timestampMicro ⟨2024, 8, 19, 5, 17, 21, 202557⟩) 1000000 = 172810
    ∧ (update initState entryTwoDays).2 = none
    ∧ (update initState entryTwoDays).1.backup_duration_gauge
        ("freenas", "/mnt/x", "root") = some 10
    ∧ (10 : ℚ) ≠ 172810 := by
  refine ⟨by decide, by decide, by decide, by decide, by norm_num⟩

/-- C4 (amended): for the worked example (startTime
`2024-08-19T05:17:21.202557011Z`, endTime `2024-08-19T05:17:58.528054855Z`)
`update` stores duration 37 — the fractional remainder truncates, it does
not round to 38; and in general the stored duration is the floor of
`endTime − startTime` in whole seconds reduced modulo 86400, which equals
the plain truncation exactly when the duration is non-negative and under
24 hours. -/
theorem C4_duration_truncates_mod_day :
    ((update initState entryExample).2 = none
      ∧ (update initState entryExample).1.backup_duration_gauge
          ("freenas", "/mnt/x", "root") = some 37
      ∧ (37 : ℚ) ≠ 38)
    ∧ ∀ (g : GaugeState) (e : Entry) (src : Source) (stt : Stats)
        (h p u : String) (a b c d : Int) (s1 s2 : String) (t1 t2 : CivilDT),
        e.source = some src → src.host = some h → src.path = some p →
        src.userName = some u → e.stats = some stt → stt.totalSize = some a →
        stt.fileCount = some b → stt.dirCount = some c → stt.errorCount = some d →
        e.startTime = some s1 → e.endTime = some s2 →
        to_struct_time s1 = some t1 → to_struct_time s2 = some t2 →
        (update g e).1.backup_duration_gauge (h, p, u)
          = some ((((timestampMicro t2 - timestampMicro t1).fdiv 1000000).emod 86400
              : Int) : ℚ) := by
  constructor
  · exact ⟨by decide, by decide, by norm_num⟩
  · intro g e src stt h p u a b c d s1 s2 t1 t2
      hsrc hh hp hu hst ha hb hc hd hs1 hs2 ht1 ht2
    have hup := update_ok g e _
      (extractEntry_fields e src stt h p u a b c d s1 s2 t1 t2
        hsrc hh hp hu hst ha hb hc hd hs1 hs2 ht1 ht2)
    simp [hup, setGauges, gaugeSet, timedeltaSecondsComponent]

/-- C4 witness: the general clause instantiated at the two-day report. -/
theorem C4_duration_truncates_mod_day_witness :
    (update initState entryTwoDays).1.backup_duration_gauge
        ("freenas", "/mnt/x", "root")
      = some ((((timestampMicro ⟨2024, 8, 21, 5, 17, 31, 202557⟩
            - timestampMicro ⟨2024, 8, 19, 5, 17, 21, 202557⟩).fdiv 1000000).emod 86400
          : Int) : ℚ) :=
  C4_duration_truncates_mod_day.2 initState entryTwoDays _ _ "freenas" "/mnt/x"
    "root" 100 2 1 0 "2024-08-19T05:17:21.202557011Z"
    "2024-08-21T05:17:31.202557011Z"
    ⟨2024, 8, 19, 5, 17, 21, 202557⟩ ⟨2024, 8, 21, 5, 17, 31, 202557⟩
    rfl rfl rfl rfl rfl rfl rfl rfl rfl rfl rfl rfl rfl

/-- C5: for every gauge state and every report that is well-formed
(source fields present, timestamps present and parseable) except that
`stats.errorCount` — or any other required stats field (`totalSize`,
`fileCount`, `dirCount`), or several of them — is absent, `update`
raises `KeyError` (it does not coerce the missing count to zero) and
returns the gauge state entirely unchanged: no gauge value for any label
tuple is created or modified by the failed call. -/
theorem C5_missing_stats_field_fails_no_mutation
    (g : GaugeState) (e : Entry) (src : Source) (stt : Stats)
    (h p u : String) (s1 s2 : String) (t1 t2 : CivilDT)
    (hsrc : e.source = some src) (hh : src.host = some h) (hp : src.path = some p)
    (hu : src.userName = some u) (hst : e.stats = some stt)
    (hs1 : e.startTime = some s1) (hs2 : e.endTime = some s2)
    (ht1 : to_struct_time s1 = some t1) (ht2 : to_struct_time s2 = some t2)
    (hmiss : stt.totalSize = none ∨ stt.fileCount = none
      ∨ stt.dirCount = none ∨ stt.errorCount = none) :
    update g e = (g, some PyErr.keyError) := by
  have hex : extractEntry e = .error .keyError := by
    cases h1 : stt.totalSize <;> cases h2 : stt.fileCount <;>
      cases h3 : stt.dirCount <;> cases h4 : stt.errorCount <;>
      simp_all [extractEntry, getItem, bind, Except.bind]
  simp [update, hex]

/-- C5 witness: the statement instantiated at the concrete report missing
exactly `stats.errorCount`. -/
theorem C5_missing_stats_field_fails_no_mutation_witness :
    update initState entryNoErrorCount = (initState, some PyErr.keyError) :=
  C5_missing_stats_field_fails_no_mutation initState entryNoErrorCount _ _
    "hostB" "pathB" "userB" "2024-08-19T05:17:21.202557011Z"
    "2024-08-19T05:17:58.528054855Z"
    ⟨2024, 8, 19, 5, 17, 21, 202557⟩ ⟨2024, 8, 19, 5, 17, 58, 528054⟩
    rfl rfl rfl rfl rfl rfl rfl rfl rfl (Or.inr (Or.inr (Or.inr rfl)))

/-- C6 (code bug): `main` has no exception handler, so an error while
processing one report does not merely abort that poll cycle — it
propagates out of the `while True:` loop and terminates the process.
Concretely: the valid report `entryOther` succeeds on its own, yet when a
first poll cycle contains a report missing `stats.errorCount`, the run
ends with that cycle's `KeyError` and the second cycle's valid report is
never processed (its gauge value is never created), rather than the loop
logging the failure and proceeding to the next poll cycle. -/
theorem C6_record_error_crashes_serve_loop :
    (update initState entryOther).2 = none
    ∧ (runCycles initState [some [entryNoErrorCount], some [entryOther]]).2
        = some PyErr.keyError
    ∧ (runCycles initState [some [entryNoErrorCount], some [entryOther]]).1.total_size_gauge
        ("hostG", "/srv/g", "userG") = none := by
  decide

/-- C7: overwrite, not accumulation — for every pair of valid reports
with the same label tuple, `update r1` followed by `update r2` leaves the
entire gauge state equal to what `update r2` alone produces (every gauge
at that tuple holds the value derived from `r2` alone); and updating
twice with the identical report leaves all gauge values unchanged from
the first call. -/
theorem C7_overwrite_and_idempotence
    (g : GaugeState) (r1 r2 : Entry) (v1 v2 : Extracted)
    (h1 : extractEntry r1 = .ok v1) (h2 : extractEntry r2 = .ok v2)
    (hk : (v1.host, v1.path, v1.user) = (v2.host, v2.path, v2.user)) :
    (update (update g r1).1 r2).1 = (update g r2).1
    ∧ (update (update g r2).1 r2).1 = (update g r2).1 := by
  have hu1 := update_ok g r1 v1 h1
  have hu2 : ∀ g2, update g2 r2 = (setGauges g2 v2, none) :=
    fun g2 => update_ok g2 r2 v2 h2
  constructor
  · rw [hu1]
    simp only [hu2]
    exact setGauges_overwrite g v1 v2 hk
  · simp only [hu2]
    exact setGauges_overwrite g v2 v2 rfl

/-- C7 witness: two valid reports for the same source, and the identical
report twice. -/
theorem C7_overwrite_and_idempotence_witness :
    extractEntry entryExample
      = Except.ok ⟨"freenas", "/mnt/x", "root", 100, 2, 1, 0,
          ⟨2024, 8, 19, 5, 17, 21, 202557⟩, ⟨2024, 8, 19, 5, 17, 58, 528054⟩, 37⟩
    ∧ extractEntry entryExample2
      = Except.ok ⟨"freenas", "/mnt/x", "root", 250, 7, 5, 1,
          ⟨2024, 8, 19, 5, 17, 21, 202557⟩, ⟨2024, 8, 20, 6, 17, 21, 202557⟩, 3600⟩
    ∧ ((update (update initState entryExample).1 entryExample2).1
          = (update initState entryExample2).1
        ∧ (update (update initState entryExample2).1 entryExample2).1
          = (update initState entryExample2).1) :=
  ⟨rfl, rfl,
    C7_overwrite_and_idempotence initState entryExample entryExample2
      ⟨"freenas", "/mnt/x", "root", 100, 2, 1, 0,
        ⟨2024, 8, 19, 5, 17, 21, 202557⟩, ⟨2024, 8, 19, 5, 17, 58, 528054⟩, 37⟩
      ⟨"freenas", "/mnt/x", "root", 250, 7, 5, 1,
        ⟨2024, 8, 19, 5, 17, 21, 202557⟩, ⟨2024, 8, 20, 6, 17, 21, 202557⟩, 3600⟩
      rfl rfl rfl⟩

/-- C8: isolation — applying `update` with a valid report never changes
any of the seven gauge values stored at a different label tuple (one
differing in host, path, or user). -/
theorem C8_key_isolation
    (g : GaugeState) (r1 : Entry) (v1 : Extracted) (k : MetricKey)
    (h1 : extractEntry r1 = .ok v1) (hk : k ≠ (v1.host, v1.path, v1.user)) :
    (update g r1).1.total_size_gauge k = g.total_size_gauge k
    ∧ (update g r1).1.file_count_gauge k = g.file_count_gauge k
    ∧ (update g r1).1.dir_count_gauge k = g.dir_count_gauge k
    ∧ (update g r1).1.error_count_gauge k = g.error_count_gauge k
    ∧ (update g r1).1.backup_duration_gauge k = g.backup_duration_gauge k
    ∧ (update g r1).1.backup_start_time_gauge k = g.backup_start_time_gauge k
    ∧ (update g r1).1.backup_end_time_gauge k = g.backup_end_time_gauge k := by
  have hu := update_ok g r1 v1 h1
  simp [hu, setGauges, gaugeSet, hk]

/-- C8 witness: updating with the worked-example report leaves the other
source's label tuple untouched. -/
theorem C8_key_isolation_witness :
    extractEntry entryExample
      = Except.ok ⟨"freenas", "/mnt/x", "root", 100, 2, 1, 0,
          ⟨2024, 8, 19, 5, 17, 21, 202557⟩, ⟨2024, 8, 19, 5, 17, 58, 528054⟩, 37⟩
    ∧ (("hostG", "/srv/g", "userG") : MetricKey) ≠ ("freenas", "/mnt/x", "root")
    ∧ ((update initState entryExample).1.total_size_gauge ("hostG", "/srv/g", "userG")
          = initState.total_size_gauge ("hostG", "/srv/g", "userG")
        ∧ (update initState entryExample).1.file_count_gauge ("hostG", "/srv/g", "userG")
          = initState.file_count_gauge ("hostG", "/srv/g", "userG")
        ∧ (update initState entryExample).1.dir_count_gauge ("hostG", "/srv/g", "userG")
          = initState.dir_count_gauge ("hostG", "/srv/g", "userG")
        ∧ (update initState entryExample).1.error_count_gauge ("hostG", "/srv/g", "userG")
          = initState.error_count_gauge ("hostG", "/srv/g", "userG")
        ∧ (update initState entryExample).1.backup_duration_gauge ("hostG", "/srv/g", "userG")
          = initState.backup_duration_gauge ("hostG", "/srv/g", "userG")
        ∧ (update initState entryExample).1.backup_start_time_gauge ("hostG", "/srv/g", "userG")
          = initState.backup_start_time_gauge ("hostG", "/srv/g", "userG")
        ∧ (update initState entryExample).1.backup_end_time_gauge ("hostG", "/srv/g", "userG")
          = initState.backup_end_time_gauge ("hostG", "/srv/g", "userG")) :=
  ⟨rfl, by decide,
    C8_key_isolation initState entryExample
      ⟨"freenas", "/mnt/x", "root", 100, 2, 1, 0,
        ⟨2024, 8, 19, 5, 17, 21, 202557⟩, ⟨2024, 8, 19, 5, 17, 58, 528054⟩, 37⟩
      ("hostG", "/srv/g", "userG") rfl (by decide)⟩

/-- C9: for every valid report whose backup duration is at least 24 hours
(floor of `endTime − startTime` at least 86400 whole seconds), the
duration gauge holds that total reduced modulo 86400 — the whole-day part
is dropped — and not the full truncated duration. -/
theorem C9_dayLong_duration_mod_86400
    (g : GaugeState) (e : Entry) (src : Source) (stt : Stats)
    (h p u : String) (a b c d : Int) (s1 s2 : String) (t1 t2 : CivilDT)
    (hsrc : e.source = some src) (hh : src.host = some h) (hp : src.path = some p)
    (hu : src.userName = some u) (hst : e.stats = some stt)
    (ha : stt.totalSize = some a) (hb : stt.fileCount = some b)
    (hc : stt.dirCount = some c) (hd : stt.errorCount = some d)
    (hs1 : e.startTime = some s1) (hs2 : e.endTime = some s2)
    (ht1 : to_struct_time s1 = some t1) (ht2 : to_struct_time s2 = some t2)
    (hdur : 86400 ≤ (timestampMicro t2 - timestampMicro t1).fdiv 1000000) :
    (update g e).1.backup_duration_gauge (h, p, u)
      = some ((((timestampMicro t2 - timestampMicro t1).fdiv 1000000).emod 86400
          : Int) : ℚ)
    ∧ (update g e).1.backup_duration_gauge (h, p, u)
      ≠ some (((timestampMicro t2 - timestampMicro t1).fdiv 1000000 : Int) : ℚ) := by
  have hup := update_ok g e _
    (extractEntry_fields e src stt h p u a b c d s1 s2 t1 t2
      hsrc hh hp hu hst ha hb hc hd hs1 hs2 ht1 ht2)
  have hmain : (update g e).1.backup_duration_gauge (h, p, u)
      = some ((((timestampMicro t2 - timestampMicro t1).fdiv 1000000).emod 86400
          : Int) : ℚ) := by
    simp [hup, setGauges, gaugeSet, timedeltaSecondsComponent]
  refine ⟨hmain, ?_⟩
  rw [hmain]
  intro heq
  have h2 : (((timestampMicro t2 - timestampMicro t1).fdiv 1000000).emod 86400 : Int)
      = ((timestampMicro t2 - timestampMicro t1).fdiv 1000000 : Int) := by
    exact_mod_cast Option.some.inj heq
  have h3 : ((timestampMicro t2 - timestampMicro t1).fdiv 1000000).emod 86400 < 86400 :=
    Int.emod_lt_of_pos _ (by norm_num)
  omega

/-- C9 witness: the 25-hour report stores 3600, not 90000. -/
theorem C9_dayLong_duration_mod_86400_witness :
    86400 ≤ (timestampMicro ⟨2024, 8, 20, 6, 17, 21, 202557⟩
        - timestampMicro ⟨2024, 8, 19, 5, 17, 21, 202557⟩).fdiv 1000000
    ∧ ((update initState entryDayLong).1.backup_duration_gauge
          ("freenas", "/mnt/x", "root")
        = some ((((timestampMicro ⟨2024, 8, 20, 6, 17, 21, 202557⟩
              - timestampMicro ⟨2024, 8, 19, 5, 17, 21, 202557⟩).fdiv 1000000).emod 86400
            : Int) : ℚ)
      ∧ (update initState entryDayLong).1.backup_duration_gauge
          ("freenas", "/mnt/x", "root")
        ≠ some (((timestampMicro ⟨2024, 8, 20, 6, 17, 21, 202557⟩
              - timestampMicro ⟨2024, 8, 19, 5, 17, 21, 202557⟩).fdiv 1000000
            : Int) : ℚ)) :=
  ⟨by decide,
    C9_dayLong_duration_mod_86400 initState entryDayLong _ _ "freenas" "/mnt/x"
      "root" 100 2 1 0 "2024-08-19T05:17:21.202557011Z"
      "2024-08-20T06:17:21.202557011Z"
      ⟨2024, 8, 19, 5, 17, 21, 202557⟩ ⟨2024, 8, 20, 6, 17, 21, 202557⟩
      rfl rfl rfl rfl rfl rfl rfl rfl rfl rfl rfl rfl rfl (by decide)⟩

/-- C10: whenever decoding the command output fails, `refresh_data`
returns `None` (the `except` branch has no return value) rather than an
empty list, and `main`'s subsequent `for entry in data` iteration over
that result raises `TypeError`. -/
theorem C10_refresh_data_none_on_decode_failure
    (loads : String → Except String (List Entry)) (output msg : String)
    (g : GaugeState) (rest : List (Option (List Entry)))
    (hfail : loads output = .error msg) :
    refresh_data loads output = none
    ∧ refresh_data loads output ≠ some []
    ∧ (runCycles g (refresh_data loads output :: rest)).2 = some PyErr.typeError := by
  have hr : refresh_data loads output = none := by
    simp [refresh_data, hfail]
  refine ⟨hr, by simp [hr], ?_⟩
  rw [hr]
  simp [runCycles]

/-- C10 witness: a decoder that always fails makes `refresh_data` return
`none` and the poll cycle raise `TypeError`. -/
theorem C10_refresh_data_none_on_decode_failure_witness :
    failingLoads "not json" = .error "Expecting value"
    ∧ (refresh_data failingLoads "not json" = none
      ∧ refresh_data failingLoads "not json" ≠ some []
      ∧ (runCycles initState [refresh_data failingLoads "not json"]).2
          = some PyErr.typeError) :=
  ⟨rfl,
    C10_refresh_data_none_on_decode_failure failingLoads "not json"
      "Expecting value" initState [] rfl⟩

end KopiaExporter
